import Mathlib

/-
Verification of the ecommerce-fullstack repository's specification.

The repository ships a React client (src/frontend/src/App.js) together with
deployment scripts and a README; the Flask backend described by the spec is
not present under src/, so the backend operations (token issuer, cart
manager, order processor) are modelled from the spec's own words, each such
definition marked `Modelled from the spec:`.  Client-side behaviour is
translated directly from App.js.
-/

namespace ECommerce

/-- Error taxonomy of spec section 7. -/
inductive ApiError where
  | ValidationError
  | InvalidCredentials
  | InvalidSignature
  | ExpiredToken
  | Forbidden
  | NotFound
  | DuplicateEmail
  | EmptyCart
  deriving DecidableEq, Repr

/-- Modelled from the spec: HTTP status code attached to each error of the
taxonomy in spec section 7 (the Flask handlers are missing from src/). -/
def statusCode : ApiError → Nat
  | .ValidationError => 400
  | .InvalidCredentials => 401
  | .InvalidSignature => 401
  | .ExpiredToken => 401
  | .Forbidden => 403
  | .NotFound => 404
  | .DuplicateEmail => 409
  | .EmptyCart => 422

/-- User role, spec section 3. -/
inductive Role where
  | customer
  | admin
  deriving DecidableEq, Repr

/-- Modelled from the spec: User record of spec section 3 (backend models are
missing from src/).  The password hash is an abstract value produced by a
hash function supplied as a parameter to the operations. -/
structure User where
  id : Nat
  name : String
  email : String
  passwordHash : Nat
  role : Role
  phone : String
  deriving DecidableEq, Repr

/-- Modelled from the spec: Product record of spec section 3. -/
structure Product where
  id : Nat
  name : String
  description : String
  price : Nat
  deriving DecidableEq, Repr

/-- Modelled from the spec: CartItem of spec section 3 — quantity plus a
denormalized price snapshot, keyed by product identifier. -/
structure CartItem where
  productId : Nat
  quantity : Nat
  price : Nat
  deriving DecidableEq, Repr

/-- Modelled from the spec: one line item of an Order — product identifier,
quantity and price-at-purchase, a frozen copy, not a reference to the live
Product record. -/
structure LineItem where
  productId : Nat
  quantity : Nat
  price : Nat
  deriving DecidableEq, Repr

/-- Modelled from the spec: Order record of spec section 3. -/
structure Order where
  id : Nat
  userId : Nat
  items : List LineItem
  total : Nat
  timestamp : Nat
  status : String
  deriving DecidableEq, Repr

/-- Modelled from the spec: session token encoding (user id, role, expiry),
signed; spec sections 3 and 4.1. -/
structure Token where
  userId : Nat
  role : Role
  expiry : Nat
  sig : Nat
  deriving DecidableEq, Repr

/-- Modelled from the spec: the document store — users, products, per-user
carts, orders. -/
structure DB where
  users : List User
  products : List Product
  carts : List (Nat × List CartItem)
  orders : List Order
  deriving DecidableEq, Repr

/-- Modelled from the spec: token signature over the encoded identity and
expiry with the signing secret (the concrete signing scheme is not in src/;
any function of secret and payload serves the spec's statements). -/
def sign (secret uid : Nat) (role : Role) (expiry : Nat) : Nat :=
  secret + 3 * uid + 5 * expiry + (match role with | .customer => 0 | .admin => 1)

/-- Modelled from the spec: token lifetime; the spec gives no duration, only
that tokens carry an expiry. -/
def tokenTtl : Nat := 86400

/-- Modelled from the spec: `login(email, password)` fails with
`InvalidCredentials` if email unknown or hash mismatch; otherwise returns a
session token encoding (user id, role, expiry). -/
def login (hash : String → Nat) (secret now : Nat) (db : DB)
    (email password : String) : Except ApiError Token :=
  match db.users.find? (fun u => u.email == email) with
  | none => .error .InvalidCredentials
  | some u =>
    if u.passwordHash == hash password then
      .ok { userId := u.id, role := u.role, expiry := now + tokenTtl,
            sig := sign secret u.id u.role (now + tokenTtl) }
    else .error .InvalidCredentials

/-- Modelled from the spec: `verify(token)` fails with `ExpiredToken` or
`InvalidSignature`; otherwise returns the decoded identity. -/
def verify (secret now : Nat) (t : Token) : Except ApiError (Nat × Role) :=
  if t.sig ≠ sign secret t.userId t.role t.expiry then .error .InvalidSignature
  else if t.expiry ≤ now then .error .ExpiredToken
  else .ok (t.userId, t.role)

/-- Modelled from the spec: catalog lookup by identifier. -/
def findProduct (db : DB) (pid : Nat) : Option Product :=
  db.products.find? (fun p => p.id == pid)

/-- Modelled from the spec: the cart of one user, empty when the user has no
cart document. -/
def getCart (db : DB) (uid : Nat) : List CartItem :=
  match db.carts.find? (fun c => c.1 == uid) with
  | some c => c.2
  | none => []

/-- Modelled from the spec: replace one user's cart document. -/
def setCart (db : DB) (uid : Nat) (items : List CartItem) : DB :=
  { db with carts := (uid, items) :: db.carts.filter (fun c => c.1 != uid) }

/-- Total of a list of cart items: Σ(quantity × snapshot price),
spec section 4.3. -/
def itemsTotal (items : List CartItem) : Nat :=
  (items.map (fun it => it.quantity * it.price)).sum

/-- Modelled from the spec: `view(user)`'s computed total
= Σ(quantity × snapshot price). -/
def cartTotal (db : DB) (uid : Nat) : Nat :=
  itemsTotal (getCart db uid)

/-- Quantity stored for one product in a list of cart items, 0 when
absent. -/
def qtyOf (items : List CartItem) (pid : Nat) : Nat :=
  match items.find? (fun it => it.productId == pid) with
  | some it => it.quantity
  | none => 0

/-- Quantity stored in a user's cart for one product, 0 when absent. -/
def cartQty (db : DB) (uid pid : Nat) : Nat :=
  qtyOf (getCart db uid) pid

/-- Modelled from the spec: `addItem(user, productId, quantity)` looks up the
product (fails `NotFound` if missing), upserts the CartItem with a price
snapshot taken at add-time, quantity incremented if the item is already
present. -/
def addItem (db : DB) (uid pid qty : Nat) : Except ApiError DB :=
  match findProduct db pid with
  | none => .error .NotFound
  | some p =>
    let items := getCart db uid
    let items2 :=
      if items.any (fun it => it.productId == pid) then
        items.map (fun it =>
          if it.productId == pid then
            { it with quantity := it.quantity + qty, price := p.price }
          else it)
      else items ++ [{ productId := pid, quantity := qty, price := p.price }]
    .ok (setCart db uid items2)

/-- Modelled from the spec: `removeItem(user, productId)` deletes the
CartItem; no-op semantics if absent (idempotent).  A total function: it never
fails. -/
def removeItem (db : DB) (uid pid : Nat) : DB :=
  setCart db uid ((getCart db uid).filter (fun it => it.productId != pid))

/-- Freeze a cart item into an order line item, spec section 4.4. -/
def freezeItem (it : CartItem) : LineItem :=
  { productId := it.productId, quantity := it.quantity, price := it.price }

/-- Modelled from the spec: `checkout(user)` fails with `EmptyCart` if no
items; otherwise atomically reads the cart, writes a new Order with frozen
line items and total, clears the cart. -/
def checkout (db : DB) (uid oid ts : Nat) : Except ApiError (DB × Order) :=
  let items := getCart db uid
  if items.isEmpty then .error .EmptyCart
  else
    let order : Order :=
      { id := oid, userId := uid, items := items.map freezeItem,
        total := itemsTotal items, timestamp := ts, status := "pending" }
    let db2 := setCart db uid []
    .ok ({ db2 with orders := db2.orders ++ [order] }, order)

/-- Modelled from the spec: admin product price update — rewrites the price
of the matching Product record, touching nothing else. -/
def updateProductPrice (db : DB) (pid newPrice : Nat) : DB :=
  { db with products := db.products.map (fun p =>
      if p.id == pid then { p with price := newPrice } else p) }

/-! Client side, translated from src/frontend/src/App.js.  Browser storage,
JSON objects and HTTP headers are modelled as association lists from field
name to string value. -/

/-- Lookup of a field in an association list (JSON object, header map or
browser storage). -/
def lookupField (kvs : List (String × String)) (k : String) : Option String :=
  (kvs.find? (fun kv => kv.1 == k)).map (fun kv => kv.2)

/-- localStorage.setItem: the key now maps to the value, older bindings of
the key are gone. -/
def setItem (storage : List (String × String)) (k v : String) :
    List (String × String) :=
  (k, v) :: storage.filter (fun kv => kv.1 != k)

/-- The base headers of the axios instance (App.js lines 10-15). -/
def baseHeaders : List (String × String) :=
  [("Content-Type", "application/json")]

/-- The axios request interceptor (App.js lines 18-24): line 20's if(token)
is a JS truthiness test, false both when no token is stored (getItem returns
null) and when the stored token is the empty string; only a present,
non-empty token sets the Authorization header to Bearer plus that token. -/
def addAuthHeader (storage headers : List (String × String)) :
    List (String × String) :=
  match lookupField storage "token" with
  | some t =>
    if t = "" then headers
    else headers ++ [("Authorization", "Bearer " ++ t)]
  | none => headers

/-- The response-data field handleLogin and handleRegister read to obtain the
session token (App.js lines 135 and 185: response.data.access_token). -/
def clientTokenField : String := "access_token"

/-- handleLogin's success path (App.js lines 134-137): setItem is called
unconditionally with response.data.access_token; when the response has no
such field the JS value is undefined and localStorage coerces it to the
string undefined. -/
def handleLoginStore (storage respData : List (String × String)) :
    List (String × String) :=
  setItem storage "token"
    (match lookupField respData clientTokenField with
     | some v => v
     | none => "undefined")

/-- handleRegister's success path (App.js lines 184-187): identical token
storage to handleLogin, including the undefined coercion for a missing
field. -/
def handleRegisterStore (storage respData : List (String × String)) :
    List (String × String) :=
  setItem storage "token"
    (match lookupField respData clientTokenField with
     | some v => v
     | none => "undefined")

/-- Modelled from the spec: the response envelope of POST /api/auth/login as
spec section 6 writes it — fields token and user (the Flask handler is
missing from src/). -/
def specLoginEnvelope (tokenValue userValue : String) :
    List (String × String) :=
  [("token", tokenValue), ("user", userValue)]

/-- Modelled from the spec: every error surfaces as JSON with a single error
field holding the message (spec section 7). -/
def errorBody (message : String) : List (String × String) :=
  [("error", message)]

/-- Modelled from the spec: the full error response — the JSON error body
together with the status code of the taxonomy entry (spec section 7). -/
def errorResponse (e : ApiError) (message : String) :
    (List (String × String)) × Nat :=
  (errorBody message, statusCode e)

/-- Alert text of handleLogin's catch branch (App.js line 139), built from
the server-supplied error message when it is present. -/
def loginErrorAlert (serverError : Option String) : String :=
  "Login failed: " ++ (match serverError with | some m => m | none => "Unknown error")

/-- Alert text of handleRegister's catch branch (App.js line 189). -/
def registerErrorAlert (serverError : Option String) : String :=
  "Registration failed: " ++ (match serverError with | some m => m | none => "Unknown error")

/-- Alert text of addToCart's catch branch (App.js line 96): a fixed string,
the server-supplied message is not read. -/
def addToCartErrorAlert (_serverError : Option String) : String :=
  "Please login to add items to cart"

/-- Alert text of removeItem's catch branch (App.js line 257): a fixed
string. -/
def removeItemErrorAlert (_serverError : Option String) : String :=
  "Error removing item"

/-- fetchProducts's catch branch (App.js lines 84-85) only writes to the
console: no alert is shown. -/
def fetchProductsAlert (_serverError : Option String) : Option String :=
  none

/-- fetchCart's catch branch (App.js lines 247-248) only writes to the
console: no alert is shown. -/
def fetchCartAlert (_serverError : Option String) : Option String :=
  none

/-- Substring test on strings, used to state that an alert carries the
server-supplied message. -/
def strContains (s sub : String) : Bool :=
  decide (sub.data <:+: s.data)

/-- HTTP method of a client request. -/
inductive Method where
  | GET
  | POST
  | DELETE
  deriving DecidableEq, Repr

/-- Every API request App.js can issue, as (method, path relative to
baseURL): GET /products (line 82), POST /cart/add (line 93), POST
/auth/login (line 134), POST /auth/register (line 184), GET /cart (line
245), DELETE /cart/remove/:id (line 254), GET /auth/profile (line 314).
The one parameterized path is the cart removal, over the product id. -/
def clientRequests (productId : String) : List (Method × String) :=
  [ (.GET, "/products"),
    (.POST, "/cart/add"),
    (.POST, "/auth/login"),
    (.POST, "/auth/register"),
    (.GET, "/cart"),
    (.DELETE, "/cart/remove/" ++ productId),
    (.GET, "/auth/profile") ]

/-- The paths registered in the Routes block (App.js lines 325-331). -/
def registeredRoutes : List String :=
  ["/", "/products", "/login", "/register", "/cart"]

/-- What the client checkout handler does (App.js lines 261-267). -/
inductive CheckoutAction where
  | alertEmpty
  | navigate (path : String)
  deriving DecidableEq, Repr

/-- The path checkout navigates to (App.js line 266). -/
def checkoutNavTarget : String := "/checkout"

/-- The client checkout handler (App.js lines 261-267): alert and stop when
the displayed cart has zero items, otherwise navigate to /checkout. -/
def clientCheckout (cartItems : List CartItem) : CheckoutAction :=
  if cartItems.length = 0 then .alertEmpty
  else .navigate checkoutNavTarget

/-! Concrete sample data used by the witnesses. -/

/-- A sample product, price 10. -/
def sampleProduct : Product :=
  { id := 7, name := "Widget", description := "A widget", price := 10 }

/-- A sample customer; passwordHash 6 is the length of the password secret
under the sample hash function String.length. -/
def sampleUser : User :=
  { id := 1, name := "Alice", email := "alice@example.com", passwordHash := 6,
    role := .customer, phone := "555" }

/-- A store where user 1 has two units of product 7 in the cart. -/
def sampleDB : DB :=
  { users := [sampleUser], products := [sampleProduct],
    carts := [(1, [{ productId := 7, quantity := 2, price := 10 }])],
    orders := [] }

/-- A store where user 1 has an empty cart. -/
def emptyCartDB : DB :=
  { users := [sampleUser], products := [sampleProduct], carts := [],
    orders := [] }

/-- The order produced by checkout of the sample store at user 1. -/
def sampleOrder : Order :=
  { id := 100, userId := 1,
    items := [{ productId := 7, quantity := 2, price := 10 }],
    total := 20, timestamp := 99, status := "pending" }

/-- The sample store after that checkout: cart emptied, order recorded. -/
def sampleCheckoutDB : DB :=
  { users := [sampleUser], products := [sampleProduct], carts := [(1, [])],
    orders := [sampleOrder] }

/-! Helper lemmas. -/

/-- Reading back a cart just written returns exactly the written items. -/
theorem getCart_setCart (db : DB) (uid : Nat) (items : List CartItem) :
    getCart (setCart db uid items) uid = items := by
  unfold getCart setCart
  rw [List.find?_cons_of_pos _ (by simp)]

/-- C1: checkout on a non-empty cart succeeds with an order whose total is
the pre-checkout cart total and whose line items are frozen from the cart
contents; the same operation empties the user's cart and appends the order
to the store. -/
theorem checkout_nonempty_ok (db : DB) (uid oid ts : Nat)
    (h : getCart db uid ≠ []) :
    ∃ db2 o, checkout db uid oid ts = Except.ok (db2, o) ∧
      o.total = cartTotal db uid ∧
      o.items = (getCart db uid).map freezeItem ∧
      getCart db2 uid = [] ∧
      db2.orders = db.orders ++ [o] := by
  have hne : (getCart db uid).isEmpty = false := by
    rcases hc : getCart db uid with _ | ⟨a, l⟩
    · exact absurd hc h
    · rfl
  have hck : checkout db uid oid ts = Except.ok
      ({ setCart db uid [] with orders := db.orders ++
          [{ id := oid, userId := uid, items := (getCart db uid).map freezeItem,
             total := itemsTotal (getCart db uid), timestamp := ts,
             status := "pending" }] },
       { id := oid, userId := uid, items := (getCart db uid).map freezeItem,
         total := itemsTotal (getCart db uid), timestamp := ts,
         status := "pending" }) := by
    unfold checkout
    simp only [hne, Bool.false_eq_true, if_false]
    rfl
  refine ⟨_, _, hck, rfl, rfl, ?_, rfl⟩
  have hsame : getCart ({ setCart db uid [] with orders := db.orders ++
      [{ id := oid, userId := uid, items := (getCart db uid).map freezeItem,
         total := itemsTotal (getCart db uid), timestamp := ts,
         status := "pending" }] }) uid = getCart (setCart db uid []) uid := rfl
  rw [hsame, getCart_setCart]

/-- C1 witness: checkout of the sample store at user 1. -/
theorem checkout_nonempty_ok_witness :
    ∃ db2 o, checkout sampleDB 1 100 99 = Except.ok (db2, o) ∧
      o.total = cartTotal sampleDB 1 ∧
      o.items = (getCart sampleDB 1).map freezeItem ∧
      getCart db2 1 = [] ∧
      db2.orders = sampleDB.orders ++ [o] :=
  checkout_nonempty_ok sampleDB 1 100 99 (by decide)

/-- C3: checkout on an empty cart fails with EmptyCart (so no order is
created), and the client checkout handler refuses to proceed when the
displayed cart has zero items. -/
theorem checkout_empty_cart (db : DB) (uid oid ts : Nat)
    (h : getCart db uid = []) :
    checkout db uid oid ts = Except.error ApiError.EmptyCart
    ∧ clientCheckout [] = CheckoutAction.alertEmpty := by
  constructor
  · unfold checkout
    simp [h]
  · rfl

/-- C3 witness: checkout of the empty-cart sample store. -/
theorem checkout_empty_cart_witness :
    checkout emptyCartDB 1 0 0 = Except.error ApiError.EmptyCart
    ∧ clientCheckout [] = CheckoutAction.alertEmpty :=
  checkout_empty_cart emptyCartDB 1 0 0 rfl

/-- C7: removeItem deletes every cart entry of the given product, removing
twice leaves the cart exactly as removing once, and when the product is
absent the cart is unchanged — a no-op, never an error. -/
theorem removeItem_spec (db : DB) (uid pid : Nat) :
    getCart (removeItem db uid pid) uid =
      (getCart db uid).filter (fun it => it.productId != pid)
    ∧ getCart (removeItem (removeItem db uid pid) uid pid) uid =
        getCart (removeItem db uid pid) uid
    ∧ ((getCart db uid).all (fun it => it.productId != pid) = true →
        getCart (removeItem db uid pid) uid = getCart db uid) := by
  refine ⟨getCart_setCart db uid _, ?_, ?_⟩
  · unfold removeItem
    simp only [getCart_setCart, List.filter_filter]
    simp
  · intro h
    unfold removeItem
    rw [getCart_setCart]
    exact List.filter_eq_self.mpr (fun a ha => List.all_eq_true.mp h a ha)

/-- C7 witness: removing the absent product 99 from the sample cart. -/
theorem removeItem_spec_witness :
    getCart (removeItem sampleDB 1 99) 1 =
      (getCart sampleDB 1).filter (fun it => it.productId != 99)
    ∧ getCart (removeItem (removeItem sampleDB 1 99) 1 99) 1 =
        getCart (removeItem sampleDB 1 99) 1
    ∧ getCart (removeItem sampleDB 1 99) 1 = getCart sampleDB 1 :=
  ⟨(removeItem_spec sampleDB 1 99).1, (removeItem_spec sampleDB 1 99).2.1,
   (removeItem_spec sampleDB 1 99).2.2 (by decide)⟩

/-- C8 counterexample: with the empty string stored under the key token, a
token is stored, yet the interceptor's truthiness guard (App.js line 20)
skips the header — the request carries no Authorization header, refuting
the claim's every-stored-token clause. -/
theorem empty_token_no_header :
    lookupField [("token", "")] "token" = some ""
    ∧ lookupField (addAuthHeader [("token", "")] baseHeaders)
        "Authorization" = none :=
  ⟨rfl, rfl⟩

/-- C8 amended: when a non-empty token is stored under the key token, every
request carries the header Authorization: Bearer followed by exactly that
token; when no token, or the empty-string token, is stored, the request
carries no Authorization header. -/
theorem request_auth_header (storage : List (String × String)) :
    (∀ t, lookupField storage "token" = some t → t ≠ "" →
      lookupField (addAuthHeader storage baseHeaders) "Authorization" =
        some ("Bearer " ++ t))
    ∧ (lookupField storage "token" = none →
      lookupField (addAuthHeader storage baseHeaders) "Authorization" = none)
    ∧ (lookupField storage "token" = some "" →
      lookupField (addAuthHeader storage baseHeaders) "Authorization" = none) := by
  refine ⟨?_, ?_, ?_⟩
  · intro t ht hne
    unfold addAuthHeader
    rw [ht]
    show lookupField (if t = "" then baseHeaders
      else baseHeaders ++ [("Authorization", "Bearer " ++ t)]) "Authorization" =
      some ("Bearer " ++ t)
    rw [if_neg hne]
    rfl
  · intro ht
    unfold addAuthHeader
    rw [ht]
    rfl
  · intro ht
    unfold addAuthHeader
    rw [ht]
    rfl

/-- C8 witness: a storage containing the non-empty token abc, an empty
storage, and a storage containing the empty-string token. -/
theorem request_auth_header_witness :
    lookupField (addAuthHeader [("token", "abc")] baseHeaders) "Authorization" =
      some ("Bearer " ++ "abc")
    ∧ lookupField (addAuthHeader [] baseHeaders) "Authorization" = none
    ∧ lookupField (addAuthHeader [("token", "")] baseHeaders)
        "Authorization" = none :=
  ⟨(request_auth_header [("token", "abc")]).1 "abc" rfl (by decide),
   (request_auth_header []).2.1 rfl,
   (request_auth_header [("token", "")]).2.2 rfl⟩

/-- The upsert step of addItem adds qty to the stored quantity of the
product, whether the item was present (map branch) or absent (append
branch). -/
theorem upsert_qty (items : List CartItem) (pid qty pr : Nat) :
    qtyOf (if items.any (fun it => it.productId == pid) then
        items.map (fun it =>
          if it.productId == pid then
            { it with quantity := it.quantity + qty, price := pr }
          else it)
      else items ++ [{ productId := pid, quantity := qty, price := pr }]) pid
    = qtyOf items pid + qty := by
  unfold qtyOf
  by_cases hany : items.any (fun it => it.productId == pid) = true
  · rw [if_pos hany]
    have hpf : ((fun it : CartItem => it.productId == pid) ∘
        (fun it => if it.productId == pid then
          { it with quantity := it.quantity + qty, price := pr } else it))
        = (fun it : CartItem => it.productId == pid) := by
      funext it
      by_cases hit : it.productId = pid
      · simp [hit]
      · simp [hit]
    rw [List.find?_map, hpf]
    rcases hf : items.find? (fun it => it.productId == pid) with _ | it0
    · exfalso
      rcases List.any_eq_true.mp hany with ⟨x, hx, hpx⟩
      exact (List.find?_eq_none.mp hf x hx) hpx
    · rw [hf]
      have h0 : it0.productId = pid := by simpa using List.find?_some hf
      simp [h0]
  · rw [if_neg hany]
    have hnone : items.find? (fun it => it.productId == pid) = none :=
      List.find?_eq_none.mpr
        (List.any_eq_false.mp (Bool.eq_false_iff.mpr hany))
    rw [List.find?_append, hnone]
    simp

/-- C4: addItem increments the quantity already stored for the product
rather than overwriting it; in particular adding a price-10 product with
quantity 2 and then quantity 3 more to an empty cart yields cart total 50,
not 30. -/
theorem addItem_accumulates :
    (∀ db db2 uid pid qty p, findProduct db pid = some p →
      addItem db uid pid qty = Except.ok db2 →
      cartQty db2 uid pid = cartQty db uid pid + qty)
    ∧ (∀ db db2 db3 uid pid p, p.price = 10 →
      findProduct db pid = some p → getCart db uid = [] →
      addItem db uid pid 2 = Except.ok db2 →
      addItem db2 uid pid 3 = Except.ok db3 →
      cartTotal db3 uid = 50) := by
  constructor
  · intro db db2 uid pid qty p hp h
    simp only [addItem, hp, Except.ok.injEq] at h
    subst h
    unfold cartQty
    rw [getCart_setCart]
    exact upsert_qty (getCart db uid) pid qty p.price
  · intro db db2 db3 uid pid p hpr hp hempty h2 h3
    simp only [addItem, hp, hempty, List.any_nil, Bool.false_eq_true,
      if_false, List.nil_append, Except.ok.injEq] at h2
    subst h2
    have hp2 : findProduct
        (setCart db uid [{ productId := pid, quantity := 2, price := p.price }])
        pid = some p := hp
    have hc2 : getCart
        (setCart db uid [{ productId := pid, quantity := 2, price := p.price }])
        uid = [{ productId := pid, quantity := 2, price := p.price }] :=
      getCart_setCart db uid _
    simp only [addItem, hp2, hc2, List.any_cons, List.any_nil, beq_self_eq_true,
      Bool.true_or, if_true, List.map_cons, List.map_nil, if_pos,
      Except.ok.injEq] at h3
    subst h3
    unfold cartTotal
    rw [getCart_setCart]
    simp [itemsTotal, hpr]

/-- C4 witness: adding two units of product 7 to the empty sample cart
increments the stored quantity from 0 to 2. -/
theorem addItem_accumulates_witness :
    cartQty (setCart emptyCartDB 1
      [{ productId := 7, quantity := 2, price := 10 }]) 1 7 =
      cartQty emptyCartDB 1 7 + 2 :=
  addItem_accumulates.1 emptyCartDB
    (setCart emptyCartDB 1 [{ productId := 7, quantity := 2, price := 10 }])
    1 7 2 sampleProduct rfl rfl

/-- C5: a product price update after checkout rewrites only the products
list — every stored order, in particular the one just placed with its frozen
line items and total, is untouched. -/
theorem order_price_frozen (db db2 : DB) (uid oid ts pid np : Nat) (o : Order)
    (h : checkout db uid oid ts = Except.ok (db2, o)) :
    (updateProductPrice db2 pid np).orders = db2.orders
    ∧ o ∈ (updateProductPrice db2 pid np).orders
    ∧ o.total = cartTotal db uid
    ∧ o.items = (getCart db uid).map freezeItem := by
  rcases hne : (getCart db uid).isEmpty with _ | _
  · simp only [checkout, hne, Bool.false_eq_true, if_false, Except.ok.injEq,
      Prod.mk.injEq] at h
    obtain ⟨hdb, ho⟩ := h
    subst hdb
    subst ho
    refine ⟨rfl, ?_, rfl, rfl⟩
    simp [updateProductPrice]
  · simp [checkout, hne] at h

/-- C5 witness: checkout of the sample store, then raising the price of
product 7 to 999. -/
theorem order_price_frozen_witness :
    (updateProductPrice sampleCheckoutDB 7 999).orders = sampleCheckoutDB.orders
    ∧ sampleOrder ∈ (updateProductPrice sampleCheckoutDB 7 999).orders
    ∧ sampleOrder.total = cartTotal sampleDB 1
    ∧ sampleOrder.items = (getCart sampleDB 1).map freezeItem :=
  order_price_frozen sampleDB sampleCheckoutDB 1 100 99 7 999 sampleOrder rfl

/-- C6: login with the registered email and the correct password returns a
token that verify decodes to that user's id and role; login with a password
whose hash differs fails with InvalidCredentials. -/
theorem login_verify (hash : String → Nat) (secret now : Nat) (db : DB)
    (email password wrong : String) (u : User)
    (hu : db.users.find? (fun x => x.email == email) = some u)
    (hpw : u.passwordHash = hash password)
    (hwrong : hash wrong ≠ hash password) :
    (∃ t, login hash secret now db email password = Except.ok t ∧
      verify secret now t = Except.ok (u.id, u.role))
    ∧ login hash secret now db email wrong =
        Except.error ApiError.InvalidCredentials := by
  constructor
  · refine ⟨⟨u.id, u.role, now + tokenTtl,
        sign secret u.id u.role (now + tokenTtl)⟩, ?_, ?_⟩
    · simp only [login, hu]
      rw [if_pos (by simp [hpw])]
    · simp [verify, tokenTtl]
  · simp only [login, hu]
    have hne : ¬ ((u.passwordHash == hash wrong) = true) := by
      simp only [hpw, beq_iff_eq]
      exact fun hh => hwrong hh.symm
    rw [if_neg hne]

/-- C6 witness: the sample customer with hash function String.length,
password secret, wrong password bad. -/
theorem login_verify_witness :
    (∃ t, login String.length 42 1000 sampleDB "alice@example.com" "secret" =
        Except.ok t ∧ verify 42 1000 t = Except.ok (1, Role.customer))
    ∧ login String.length 42 1000 sampleDB "alice@example.com" "bad" =
        Except.error ApiError.InvalidCredentials :=
  login_verify String.length 42 1000 sampleDB "alice@example.com" "secret"
    "bad" sampleUser rfl rfl (by decide)

/-- C2 counterexample: under the spec's written login envelope, whose fields
are token and user, the client — which reads the field access_token — finds
the field absent and stores the coerced string undefined rather than the
envelope's session token tok123, and the field it consumes is not the spec's
token field. -/
theorem login_envelope_mismatch :
    lookupField (specLoginEnvelope "tok123" "alice") clientTokenField = none
    ∧ lookupField (handleLoginStore [] (specLoginEnvelope "tok123" "alice"))
        "token" = some "undefined"
    ∧ lookupField (handleLoginStore [] (specLoginEnvelope "tok123" "alice"))
        "token" ≠ some "tok123"
    ∧ clientTokenField ≠ "token" := by
  refine ⟨rfl, rfl, ?_, ?_⟩
  · decide
  · decide

/-- C2 amended: a successful login or register response is consumed through
its access_token field — both client handlers store that field's value under
the browser-storage key token. -/
theorem client_stores_access_token (storage respData : List (String × String))
    (v : String) (h : lookupField respData clientTokenField = some v) :
    lookupField (handleLoginStore storage respData) "token" = some v
    ∧ lookupField (handleRegisterStore storage respData) "token" = some v := by
  unfold handleLoginStore handleRegisterStore
  rw [h]
  exact ⟨rfl, rfl⟩

/-- C2 witness: a response carrying access_token t1. -/
theorem client_stores_access_token_witness :
    lookupField (handleLoginStore [] [("access_token", "t1"), ("user", "u")])
      "token" = some "t1"
    ∧ lookupField (handleRegisterStore [] [("access_token", "t1"), ("user", "u")])
      "token" = some "t1" :=
  client_stores_access_token [] [("access_token", "t1"), ("user", "u")] "t1" rfl

/-- C9 counterexample: when adding to the cart or removing from it fails,
the alert the client shows does not contain the server-supplied error
message, here Product not found. -/
theorem cart_alert_drops_server_message :
    strContains (addToCartErrorAlert (some "Product not found"))
      "Product not found" = false
    ∧ strContains (removeItemErrorAlert (some "Product not found"))
      "Product not found" = false := by
  constructor
  · decide
  · decide

/-- C9 amended: server errors surface as JSON with an error field holding
the message together with the taxonomy's corresponding status code — 400
ValidationError, 401 InvalidCredentials, InvalidSignature and ExpiredToken,
403 Forbidden, 404 NotFound, 409 DuplicateEmail, 422 EmptyCart; the client
surfaces login and register failures as alerts containing the
server-supplied message, while cart add and remove failures show fixed alert
texts independent of it and the product and cart fetch failures show no
alert at all. -/
theorem error_surfacing_amended (m : String) :
    strContains (loginErrorAlert (some m)) m = true
    ∧ strContains (registerErrorAlert (some m)) m = true
    ∧ (∀ e, addToCartErrorAlert e = addToCartErrorAlert none)
    ∧ (∀ e, removeItemErrorAlert e = removeItemErrorAlert none)
    ∧ fetchProductsAlert (some m) = none
    ∧ fetchCartAlert (some m) = none
    ∧ (∀ e, lookupField (errorResponse e m).1 "error" = some m
        ∧ (errorResponse e m).2 = statusCode e)
    ∧ statusCode ApiError.ValidationError = 400
    ∧ statusCode ApiError.InvalidCredentials = 401
    ∧ statusCode ApiError.InvalidSignature = 401
    ∧ statusCode ApiError.ExpiredToken = 401
    ∧ statusCode ApiError.Forbidden = 403
    ∧ statusCode ApiError.NotFound = 404
    ∧ statusCode ApiError.DuplicateEmail = 409
    ∧ statusCode ApiError.EmptyCart = 422 := by
  refine ⟨?_, ?_, fun e => rfl, fun e => rfl, rfl, rfl, fun e => ⟨rfl, rfl⟩,
    rfl, rfl, rfl, rfl, rfl, rfl, rfl, rfl⟩
  · unfold strContains loginErrorAlert
    simp only [decide_eq_true_eq, String.data_append]
    exact (List.suffix_append _ _).isInfix
  · unfold strContains registerErrorAlert
    simp only [decide_eq_true_eq, String.data_append]
    exact (List.suffix_append _ _).isInfix

/-- C10: the client never issues an order request: neither POST /orders nor
GET /orders is among the requests App.js can issue, the checkout handler
either refuses (empty cart) or only navigates to /checkout, and /checkout is
not a registered route. -/
theorem orders_unreachable (productId : String) (items : List CartItem) :
    (Method.POST, "/orders") ∉ clientRequests productId
    ∧ (Method.GET, "/orders") ∉ clientRequests productId
    ∧ checkoutNavTarget ∉ registeredRoutes
    ∧ (clientCheckout items = CheckoutAction.alertEmpty
        ∨ clientCheckout items = CheckoutAction.navigate checkoutNavTarget) := by
  refine ⟨?_, ?_, by decide, ?_⟩
  · intro h
    simp [clientRequests] at h
  · intro h
    simp [clientRequests] at h
  · unfold clientCheckout
    split
    · exact Or.inl rfl
    · exact Or.inr rfl

end ECommerce
